import Mathlib

/-!
Verification development for the rstcheck document checker
(`src/rstcheck/__init__.py`).

The Python code is shallowly embedded: pure fragments become Lean
functions, CPython string/list primitives are modelled by executable
helpers (`pyStrip`, `pySplitlines`, Python-style indexing and bounded
`str.split`), and calls into external collaborators (the `docutils`
parser, the stdlib `json`/`xml`/`compile`/`doctest` front ends, and
checker subprocesses) are parameters of the model: their observable
outcome is an input, while everything the repository itself computes on
that outcome is translated from the source.

Raised Python exceptions are modelled with `Option`/`Except`: a `none`
or `.error` result of an embedded function stands for the corresponding
`IndexError`/`NameError`/`ValueError` escaping the translated code.
-/

namespace Rstcheck

/-! ## Python string and list primitives -/

/-- Characters stripped by Python `str.strip()` (ASCII whitespace). -/
def isPySpace (c : Char) : Bool :=
  c = ' ' || c = '\t' || c = '\n' || c = '\r' || c = '\x0b' || c = '\x0c'

/-- Python `str.strip()`. -/
def pyStrip (s : String) : String :=
  ⟨((s.toList.dropWhile isPySpace).reverse.dropWhile isPySpace).reverse⟩

/-- Python `str.lstrip()`. -/
def pyLStrip (s : String) : String :=
  ⟨s.toList.dropWhile isPySpace⟩

/-- Splitting a character list on every occurrence of `sep`;
`[]` splits to the single empty part, as Python `str.split(sep)`. -/
def splitCharList (sep : Char) : List Char → List (List Char)
  | [] => [[]]
  | c :: cs =>
    let r := splitCharList sep cs
    if c = sep then [] :: r
    else (c :: r.headD []) :: r.tail

/-- Python `str.split(sep)` for a one-character separator. -/
def splitOnChar (sep : Char) (s : String) : List String :=
  (splitCharList sep s.toList).map fun cs => ⟨cs⟩

/-- Python `str.startswith(pre)`. -/
def pyStartsWith (s pre : String) : Bool :=
  pre.toList.isPrefixOf s.toList

/-- Python `str.splitlines()` for documents with `\n` line endings:
no entry for a trailing newline, and the empty string has no lines. -/
def pySplitlines (s : String) : List String :=
  if s = "" then []
  else if s.toList.getLast? = some '\n' then (splitOnChar '\n' s).dropLast
  else splitOnChar '\n' s

/-- Python list subscript `l[i]` including negative indexing;
`none` models an `IndexError`. -/
def pyGet? (l : List String) (i : Int) : Option String :=
  if 0 ≤ i then l.get? i.toNat
  else if 0 ≤ (l.length : Int) + i then l.get? ((l.length : Int) + i).toNat
  else none

/-- Python slice `l[i:]` including negative start values. -/
def pySliceFrom (l : List String) (i : Int) : List String :=
  if 0 ≤ i then l.drop i.toNat else l.drop ((l.length : Int) + i).toNat

/-- Joining parts back with a separator (Python `sep.join(parts)`). -/
def joinSep (sep : String) : List String → String
  | [] => ""
  | [x] => x
  | x :: xs => x ++ sep ++ joinSep sep xs

/-- Python `str.split(sep, maxsplit)` for a one-character separator. -/
def pySplitMax (s : String) (sep : Char) (maxsplit : Nat) : List String :=
  let parts := splitOnChar sep s
  if parts.length ≤ maxsplit + 1 then parts
  else parts.take maxsplit ++ [joinSep ⟨[sep]⟩ (parts.drop maxsplit)]

/-- Numeric value of a digit string. -/
def digitsToNat (ds : List Char) : Nat :=
  ds.foldl (fun a c => a * 10 + (c.toNat - '0'.toNat)) 0

/-- Python `int(str)`: optional sign and decimal digits after stripping;
`none` models the `ValueError`. -/
def pyInt? (s : String) : Option Int :=
  match (pyStrip s).toList with
  | '-' :: rest =>
    if rest ≠ [] ∧ rest.all Char.isDigit then some (-(digitsToNat rest : Int)) else none
  | '+' :: rest =>
    if rest ≠ [] ∧ rest.all Char.isDigit then some (digitsToNat rest : Int) else none
  | cs =>
    if cs ≠ [] ∧ cs.all Char.isDigit then some (digitsToNat cs : Int) else none

/-! ## Line-offset resolver (`beginning_of_code_block`) -/

/-- `SPHINX_CODE_BLOCK_DELTA` from the source. -/
def SPHINX_CODE_BLOCK_DELTA : Int := -1

/-- The backwards walk `for line_no in range(line_number, 1, -1):
if lines[line_no - 2].strip(): break` followed by reading `line_no`.
`none` models the `IndexError` raised by `lines[line_no - 2]`. -/
def walkBack (lines : List String) : Nat → Option Nat
  | 0 => none
  | 1 => none
  | 2 =>
    match lines.get? 0 with
    | none => none
    | some _ => some 2
  | (n + 3) =>
    match lines.get? (n + 1) with
    | none => none
    | some s => if pyStrip s = "" then walkBack lines (n + 2) else some (n + 3)

/-- The fall-through return of `beginning_of_code_block`: an empty
`range(line_number, 1, -1)` leaves `line_no` unbound (`NameError`,
modelled by `none`), otherwise the walk result minus the block length. -/
def walk_return (lines : List String) (line_number code_block_length : Int) : Option Int :=
  if line_number < 2 then none
  else (walkBack lines line_number.toNat).map fun ln => (ln : Int) - code_block_length

/-- `beginning_of_code_block` from the source.  `sphinxInstalled` is the
module-level `SPHINX_INSTALLED` flag, `attrCount` the size of
`node.non_default_attributes()` reported by docutils.  `none` models an
escaping exception. -/
def beginning_of_code_block (sphinxInstalled : Bool) (attrCount : Nat)
    (rawsource full_contents : String) (line_number : Int)
    (is_code_node : Bool) : Option Int :=
  if sphinxInstalled && !is_code_node then
    -- `delta` is the attribute count and `blank_lines` the index of the
    -- first truthy entry of `full_contents.splitlines()[line_number:]`.
    some (line_number + (attrCount : Int) - 1
      + ((((pySliceFrom (pySplitlines full_contents) line_number).findIdx?
            fun x => x != "").getD 0 : Nat) : Int)
      - 1 + SPHINX_CODE_BLOCK_DELTA)
  else
    -- `code_block_length = len(node.rawsource.splitlines())`.
    match pyGet? (pySplitlines full_contents) (line_number - 1) with
    | some s =>
      if pyStrip s = "" then
        walk_return (pySplitlines full_contents) line_number
          ((pySplitlines rawsource).length : Int)
      else some (line_number - ((pySplitlines rawsource).length : Int) + 1)
    | none =>
      walk_return (pySplitlines full_contents) line_number
        ((pySplitlines rawsource).length : Int)

/-! ## Trailing "line N" recovery (`re.search(r": line\s+([0-9]+)[^:]*$", m)`)
used by `check_json` and `check_xml`. -/

/-- Attempt of the pattern at the head of `cs`: literal `": line"`, one
or more whitespace characters, one or more digits, then no further colon
up to the end of the string. -/
def matchColonLineAt (cs : List Char) : Option Nat :=
  if cs.take 6 = [':', ' ', 'l', 'i', 'n', 'e'] then
    let rest := cs.drop 6
    let ws := rest.takeWhile isPySpace
    let rest2 := rest.dropWhile isPySpace
    let ds := rest2.takeWhile Char.isDigit
    let rest3 := rest2.dropWhile Char.isDigit
    if ws ≠ [] ∧ ds ≠ [] ∧ rest3.all (fun c => c ≠ ':') then some (digitsToNat ds)
    else none
  else none

/-- Leftmost-position search of the pattern, as `re.search` does. -/
def searchColonLine : List Char → Option Nat
  | [] => none
  | c :: cs =>
    match matchColonLineAt (c :: cs) with
    | some n => some n
    | none => searchColonLine cs

/-- The captured line number of the trailing `": line N"` fragment of a
parser message, when present. -/
def searchLineNumber (message : String) : Option Nat :=
  searchColonLine message.toList

/-- `re.match("line ([0-9]+)", message)` used by `check_doctest`. -/
def doctestLineMatch (message : String) : Option Nat :=
  let cs := message.toList
  if cs.take 5 = ['l', 'i', 'n', 'e', ' '] then
    let ds := (cs.drop 5).takeWhile Char.isDigit
    if ds ≠ [] then some (digitsToNat ds) else none
  else none

/-! ## External collaborator outcomes

The stdlib front ends (`compile`, `json.loads`,
`xml.etree.ElementTree.fromstring`, `doctest.DocTestParser().parse`) and
the subprocess-backed checkers are external to the repository; the model
takes their observable outcome as input.  `none` means the call
succeeded; `some payload` carries the exception message (and, for
`compile`, the optional `SyntaxError.lineno`). -/

structure CheckerEnv where
  pythonCompile : String → Option (Option Int × String)
  jsonLoads : String → Option String
  xmlParse : String → Option String
  doctestParse : String → Option String
  bashErrors : String → List (Int × String)
  cErrors : String → List (Int × String)
  cppErrors : String → List (Int × String)
  rstErrors : String → List (Int × String)

/-! ## Subprocess-free checkers -/

/-- `check_python`: a successful `compile` yields nothing; a
`SyntaxError` yields `(int(exception.lineno or 0), exception.msg)`. -/
def check_python (env : CheckerEnv) (code : String) : List (Int × String) :=
  match env.pythonCompile code with
  | none => []
  | some (lineno, msg) => [(lineno.getD 0, msg)]

/-- `check_json`: a `ValueError` from `json.loads` yields one pair whose
line number is recovered from the trailing `": line N"` fragment of the
message, or `0` when the fragment is absent. -/
def check_json (env : CheckerEnv) (code : String) : List (Int × String) :=
  match env.jsonLoads code with
  | none => []
  | some message =>
    let line_number : Int :=
      match searchLineNumber message with
      | some n => (n : Int)
      | none => 0
    [(line_number, message)]

/-- `check_xml`: same shape as `check_json` over
`xml.etree.ElementTree.fromstring`. -/
def check_xml (env : CheckerEnv) (code : String) : List (Int × String) :=
  match env.xmlParse code with
  | none => []
  | some message =>
    let line_number : Int :=
      match searchLineNumber message with
      | some n => (n : Int)
      | none => 0
    [(line_number, message)]

/-- `check_doctest`: a `ValueError` from the doctest parser yields a
pair only when its message matches `re.match("line ([0-9]+)", ...)`;
a structurally valid doctest yields nothing, whatever the wrapped code
contains. -/
def check_doctest (env : CheckerEnv) (code : String) : List (Int × String) :=
  match env.doctestParse code with
  | none => []
  | some message =>
    match doctestLineMatch message with
    | some n => [((n : Int), message)]
    | none => []

/-! ## GCC-style error parsing (`parse_gcc_style_error_message`,
`gcc_checker`) -/

/-- The Python exception classes distinguished by the callers of
`parse_gcc_style_error_message`: `ValueError` is caught and the line
discarded, `IndexError` is not caught. -/
inductive PyExc
  | valueError
  | indexError
deriving DecidableEq, Repr

/-- `parse_gcc_style_error_message`: strip the `filename + ":"` head,
split on at most `2` (with column) or `1` (without) further colons, and
read `(int(parts[0]), parts[colons].strip())`.  A missing head or a
non-integer first field raises `ValueError`; too few colon fields makes
`parts[colons]` raise `IndexError`. -/
def parse_gcc_style_error_message (message filename : String)
    (has_column : Bool := true) : Except PyExc (Int × String) :=
  let colons := if has_column then 2 else 1
  let pfx := filename ++ ":"
  if pyStartsWith message pfx then
    let rest := message.drop pfx.length
    let split_message := pySplitMax rest ':' colons
    match pyInt? (split_message.headD "") with
    | none => .error .valueError
    | some line_number =>
      match split_message.get? colons with
      | none => .error .indexError
      | some tail => .ok (line_number, pyStrip tail)
  else .error .valueError

/-- The collection loop of `gcc_checker`'s `run_check`: each stderr line
is parsed; `ValueError` skips the line, while an `IndexError` escapes
the `except ValueError` handler, losing the remaining lines. -/
def gcc_collect : List String → String → List (Int × String) × Option PyExc
  | [], _ => ([], none)
  | line :: rest, filename =>
    match parse_gcc_style_error_message line filename true with
    | .ok e => ((e :: (gcc_collect rest filename).1), (gcc_collect rest filename).2)
    | .error .valueError => gcc_collect rest filename
    | .error .indexError => ([], some .indexError)

/-- `gcc_checker`'s result for a failed compiler run with stderr text
`output` and temporary artifact name `filename`. -/
def gcc_checker_errors (output filename : String) : List (Int × String) × Option PyExc :=
  gcc_collect (pySplitlines output) filename

/-! ## Traversal visitor (`CheckTranslator`) -/

/-- The data of a docutils `literal_block`/`doctest_block` node the
visitor reads: the `language` attribute, the `classes` list, the raw
fragment text, the reported source line (absent for some nodes), and
the size of `non_default_attributes()`. -/
structure LBNode where
  language : Option String
  classes : List String
  rawsource : String
  line : Option Int
  attrCount : Nat

/-- The keys of `check_dict` plus the doctest route. -/
inductive CheckerKind
  | bash
  | c
  | cpp
  | json
  | xml
  | python
  | rst
  | doctest
deriving DecidableEq, Repr

/-- The language label interpolated into `f"({language}) {message}"`. -/
def languageLabel : CheckerKind → String
  | .bash => "bash"
  | .c => "c"
  | .cpp => "cpp"
  | .json => "json"
  | .xml => "xml"
  | .python => "python"
  | .rst => "rst"
  | .doctest => "doctest"

/-- `check_dict.get(language)` of `visit_literal_block`. -/
def check_dict_lookup (language : String) : Option CheckerKind :=
  if language = "bash" then some .bash
  else if language = "c" then some .c
  else if language = "cpp" then some .cpp
  else if language = "json" then some .json
  else if language = "xml" then some .xml
  else if language = "python" then some .python
  else if language = "rst" then some .rst
  else none

/-- Python truthiness of the `language` attribute: absent or empty. -/
def falsyLang : Option String → Bool
  | none => true
  | some s => s = ""

/-- The language-resolution head of `visit_literal_block`: a falsy
`language` attribute switches to the `..code::` form (`is_code_node`),
taking `classes[-1]` when `"code"` is among the classes and skipping the
node entirely otherwise. -/
def resolveLanguage (node : LBNode) : Option (String × Bool) :=
  if falsyLang node.language then
    if "code" ∈ node.classes then some (node.classes.getLastD "", true) else none
  else some (node.language.getD "", false)

/-- The effective ignore set at visit time: the caller- and
document-supplied languages with the `None` entry appended by
`CheckTranslator.__init__`. -/
def effectiveIgnore (ignoreLangs : List (Option String)) : List (Option String) :=
  ignoreLangs ++ [none]

/-- A deferred checker registered by `_add_check`. -/
structure Registered where
  kind : CheckerKind
  node : LBNode
  is_code_node : Bool

/-- `visit_doctest_block`: skipped when `"doctest"` is ignored,
otherwise registered with language `"doctest"` and
`is_code_node=False`. -/
def visit_doctest_block (ignoreLangs : List (Option String)) (node : LBNode) :
    Option Registered :=
  if (some "doctest") ∈ effectiveIgnore ignoreLangs then none
  else some ⟨.doctest, node, false⟩

/-- `visit_literal_block`: resolve the language, drop ignored
languages, route doctests (declared `doctest`, or `python` whose
left-stripped source opens with the `">>> "` prompt) to
`visit_doctest_block`, and otherwise register the `check_dict`
checker when the language is supported. -/
def visit_literal_block (ignoreLangs : List (Option String)) (node : LBNode) :
    Option Registered :=
  match resolveLanguage node with
  | none => none
  | some (language, is_code_node) =>
    if (some language) ∈ effectiveIgnore ignoreLangs then none
    else if language = "doctest"
        ∨ (language = "python" ∧ pyStartsWith (pyLStrip node.rawsource) ">>> ") then
      visit_doctest_block ignoreLangs node
    else
      match check_dict_lookup language with
      | none => none
      | some k => some ⟨k, node, is_code_node⟩

/-- The raw `(local line, message)` pairs the registered checker routine
produces for the captured fragment. -/
def run_raw (env : CheckerEnv) (reg : Registered) : List (Int × String) :=
  match reg.kind with
  | .bash => env.bashErrors reg.node.rawsource
  | .c => env.cErrors reg.node.rawsource
  | .cpp => env.cppErrors reg.node.rawsource
  | .json => check_json env reg.node.rawsource
  | .xml => check_xml env reg.node.rawsource
  | .python => check_python env reg.node.rawsource
  | .rst => env.rstErrors reg.node.rawsource
  | .doctest => check_doctest env reg.node.rawsource

/-- `_add_check`'s `run_check`: when the node carries no `line`
attribute every raw pair is consumed without yielding; otherwise each
raw pair is re-anchored to
`beginning_of_code_block(...) + (local - 1)` and labelled
`"(language) message"`.  `none` models an exception escaping from
`beginning_of_code_block`. -/
def add_check_diagnostics (env : CheckerEnv) (sphinxInstalled : Bool)
    (file_contents : String) (reg : Registered) : Option (List (Int × String)) :=
  match reg.node.line with
  | none => some []
  | some line_number =>
    (run_raw env reg).mapM fun result =>
      (beginning_of_code_block sphinxInstalled reg.node.attrCount reg.node.rawsource
          file_contents line_number reg.is_code_node).map fun b =>
        (b + (result.1 - 1), "(" ++ languageLabel reg.kind ++ ") " ++ result.2)

/-- Diagnostics a single visited literal block contributes to the
document result: nothing when no deferred checker was registered. -/
def region_diagnostics (env : CheckerEnv) (sphinxInstalled : Bool)
    (file_contents : String) (ignoreLangs : List (Option String))
    (node : LBNode) : Option (List (Int × String)) :=
  match visit_literal_block ignoreLangs node with
  | none => some []
  | some reg => add_check_diagnostics env sphinxInstalled file_contents reg

/-! ## In-document directive scan (`find_ignored_languages`) -/

/-- `line[match.end():].strip().split("=")` for a line matching the
`".. rstcheck:"` comment prefix. -/
def directiveKV (line : String) : List String :=
  splitOnChar '=' (pyStrip (line.drop 12))

/-- `find_ignored_languages` consumed by `list.extend`: the yielded
languages produced before any failure, and the 1-indexed line number of
the raised `Error` when a directive line does not split into exactly
two `=`-separated parts.  The first argument carries the 0-indexed
position of the first remaining line. -/
def find_ignored_languages : Nat → List String → List String × Option Nat
  | _, [] => ([], none)
  | i, line :: rest =>
    if pyStartsWith line ".. rstcheck:" then
      if (directiveKV line).length = 2 then
        let langs :=
          if (directiveKV line).headD "" = "ignore-language"
          then (splitOnChar ',' ((directiveKV line).getD 1 "")).map pyStrip
          else []
        (langs ++ (find_ignored_languages (i + 1) rest).1,
          (find_ignored_languages (i + 1) rest).2)
      else ([], some (i + 1))
    else find_ignored_languages (i + 1) rest

/-- The diagnostics `check` emits for the directive scan: the caught
`Error` becomes one `(line_number, str(error))` tuple. -/
def directive_scan_diags (source : String) : List (Int × String) :=
  match (find_ignored_languages 0 (pySplitlines source)).2 with
  | none => []
  | some ln => [((ln : Int), "Expected \"key=value\" syntax")]

/-! ## Document checker merge stage (`check`) -/

/-- The filtering loop of `check` over the docutils warning stream:
each raw message line is dropped when the configured ignore-messages
pattern (`none` models the unset/empty pattern) matches it, otherwise
parsed as a column-free GCC-style message, with `ValueError` skipping
the line. -/
def structural_stage (matcher : Option (String → Bool)) (filename : String) :
    List String → List (Int × String) × Option PyExc
  | [] => ([], none)
  | message :: rest =>
    if (match matcher with | some m => m message | none => false) then
      structural_stage matcher filename rest
    else
      match parse_gcc_style_error_message message filename false with
      | .ok e =>
        ((e :: (structural_stage matcher filename rest).1),
          (structural_stage matcher filename rest).2)
      | .error .valueError => structural_stage matcher filename rest
      | .error .indexError => ([], some .indexError)

/-- `check`'s final yield order: all checker-produced diagnostics, then
the surviving parser-native diagnostics. -/
def check_merge (checkerDiags : List (Int × String))
    (matcher : Option (String → Bool)) (filename : String)
    (rawMessages : List String) : List (Int × String) :=
  checkerDiags ++ (structural_stage matcher filename rawMessages).1

/-! ## Fleet orchestrator aggregation (`main`) -/

/-- `re.match(r"\([A-Z]+/[0-9]+\)", message)`: the message opens with a
parenthesised severity tag of one or more capitals, a slash and one or
more digits. -/
def hasSeverityTag (message : String) : Bool :=
  match message.toList with
  | '(' :: rest =>
    let ups := rest.takeWhile fun c => 'A' ≤ c && c ≤ 'Z'
    let r2 := rest.dropWhile fun c => 'A' ≤ c && c ≤ 'Z'
    match r2 with
    | '/' :: r3 =>
      let ds := r3.takeWhile Char.isDigit
      let r4 := r3.dropWhile Char.isDigit
      ups ≠ [] && ds ≠ [] &&
        (match r4 with
          | ')' :: _ => true
          | _ => false)
    | _ => false
  | _ => false

/-- The default-severity rewrite applied before printing. -/
def tagMessage (message : String) : String :=
  if hasSeverityTag message then message else "(ERROR/3) " ++ message

/-- The lines `main` prints for the collected per-file results. -/
def main_output (results : List (String × List (Int × String))) : List String :=
  (results.map fun fr =>
    fr.2.map fun e => fr.1 ++ ":" ++ toString e.1 ++ ": " ++ tagMessage e.2).flatten

/-- `main`'s exit status over the dispatch outcome: `.error` models an
`OSError`/`UnicodeError` caught at the top level. -/
def main_status (dispatch : Except Unit (List (String × List (Int × String)))) : Nat :=
  match dispatch with
  | .error _ => 1
  | .ok results => if results.all fun fr => fr.2.isEmpty then 0 else 1

/-! ## A concrete collaborator environment

Outcomes observed from CPython 3.11 for the fragments exercised below;
the sole role of this environment is to instantiate theorems on
concrete inputs. -/

def sampleEnv : CheckerEnv where
  pythonCompile := fun code =>
    if code = "x = 1" then none
    else some (some 1, "\x27(\x27 was never closed")
  jsonLoads := fun code =>
    if code = "\x7b\"a\": 1\x7d" then none
    else some "Expecting \x27,\x27 delimiter: line 1 column 8 (char 7)"
  xmlParse := fun code =>
    if code = "<a>text</a>" then none
    else some "no element found: line 1, column 7"
  doctestParse := fun _ => none
  bashErrors := fun _ => []
  cErrors := fun _ => []
  cppErrors := fun _ => []
  rstErrors := fun _ => [(1, "some nested failure")]

/-! ## Claims -/

/-- Claim C1: a code region whose resolved declared language lies in the
effective ignore set at visit time registers no deferred checker, and
(as does the structurally skipped untyped block, the reading of the
implicit `None` entry) contributes zero diagnostics to the document
result whatever the checkers would have reported on its fragment. -/
theorem visit_ignored_language_no_checker
    (env : CheckerEnv) (sphinxInstalled : Bool) (file_contents : String)
    (ignoreLangs : List (Option String)) (node : LBNode)
    (h : ∀ language is_code_node,
      resolveLanguage node = some (language, is_code_node) →
      (some language) ∈ effectiveIgnore ignoreLangs) :
    visit_literal_block ignoreLangs node = none ∧
      region_diagnostics env sphinxInstalled file_contents ignoreLangs node = some [] := by
  have hvisit : visit_literal_block ignoreLangs node = none := by
    unfold visit_literal_block
    cases hres : resolveLanguage node with
    | none => rfl
    | some p =>
      obtain ⟨language, is_code_node⟩ := p
      simp [h language is_code_node hres]
  refine ⟨hvisit, ?_⟩
  unfold region_diagnostics
  rw [hvisit]

/-- Claim C1 witness: with `python` in the caller-supplied ignore set, a
`python` code block carrying a syntactically invalid fragment registers
nothing and yields no diagnostics. -/
theorem visit_ignored_language_no_checker_witness :
    visit_literal_block [some "python"]
        ⟨some "python", [], "x = (", some 5, 0⟩ = none ∧
      region_diagnostics sampleEnv false "doc" [some "python"]
        ⟨some "python", [], "x = (", some 5, 0⟩ = some [] := by
  apply visit_ignored_language_no_checker
  intro language is_code_node hres
  have hval : resolveLanguage ⟨some "python", [], "x = (", some 5, 0⟩
      = some ("python", false) := by decide
  rw [hval] at hres
  cases hres
  decide

/-- Claim C10: a deferred checker whose node carries no reported line
number consumes every raw `(line, message)` pair without yielding: it
produces zero diagnostics even when the underlying checker reported
errors. -/
theorem add_check_no_line_no_diagnostics
    (env : CheckerEnv) (sphinxInstalled : Bool) (file_contents : String)
    (reg : Registered) (h : reg.node.line = none) :
    add_check_diagnostics env sphinxInstalled file_contents reg = some [] := by
  unfold add_check_diagnostics
  rw [h]

/-- Claim C10 witness: a registered `json` checker over an invalid
fragment whose node lacks a line attribute yields nothing although the
underlying checker produced a pair. -/
theorem add_check_no_line_no_diagnostics_witness :
    add_check_diagnostics sampleEnv false "doc"
        ⟨.json, ⟨some "json", [], "\x7b\"a\": 1", none, 0⟩, false⟩ = some [] ∧
      run_raw sampleEnv ⟨.json, ⟨some "json", [], "\x7b\"a\": 1", none, 0⟩, false⟩ ≠ [] := by
  constructor
  · exact add_check_no_line_no_diagnostics sampleEnv false "doc"
      ⟨.json, ⟨some "json", [], "\x7b\"a\": 1", none, 0⟩, false⟩ rfl
  · decide

/-- Claim C3: a non-ignored region declared `doctest`, or declared
`python` with a fragment opening on the interactive prompt, is routed to
the doctest checker (never the language's own checker); and the doctest
checker yields nothing whenever the interactive-example structure
parses, regardless of the syntax of the wrapped code. -/
theorem doctest_routing_structure_only
    (env : CheckerEnv) (sphinxInstalled : Bool) (file_contents : String)
    (ignoreLangs : List (Option String)) (node : LBNode)
    (language : String) (is_code_node : Bool)
    (hres : resolveLanguage node = some (language, is_code_node))
    (hnotign : (some language) ∉ effectiveIgnore ignoreLangs)
    (hroute : language = "doctest"
      ∨ (language = "python" ∧ pyStartsWith (pyLStrip node.rawsource) ">>> " = true)) :
    (visit_literal_block ignoreLangs node = visit_doctest_block ignoreLangs node) ∧
      (∀ code, env.doctestParse code = none → check_doctest env code = []) ∧
      (env.doctestParse node.rawsource = none →
        add_check_diagnostics env sphinxInstalled file_contents
          ⟨.doctest, node, false⟩ = some []) := by
  refine ⟨?_, ?_, ?_⟩
  · unfold visit_literal_block
    rw [hres]
    simp only [hnotign, if_false]
    have hcond : (language = "doctest"
        ∨ (language = "python" ∧ pyStartsWith (pyLStrip node.rawsource) ">>> " = true)) := hroute
    rw [if_pos hcond]
  · intro code hparse
    unfold check_doctest
    rw [hparse]
  · intro hparse
    unfold add_check_diagnostics
    cases hline : node.line with
    | none => rfl
    | some ln =>
      simp only
      have hraw : run_raw env ⟨.doctest, node, false⟩ = [] := by
        unfold run_raw check_doctest
        rw [hparse]
      rw [hraw]
      rfl

/-- Claim C3 witness: a `python` block whose fragment is a doctest
wrapping syntactically invalid Python is routed to the doctest checker
and, the interactive-example structure being parseable, yields zero
diagnostics. -/
theorem doctest_routing_structure_only_witness :
    (visit_literal_block [] ⟨some "python", [], ">>> x = (", some 4, 0⟩
        = visit_doctest_block [] ⟨some "python", [], ">>> x = (", some 4, 0⟩) ∧
      add_check_diagnostics sampleEnv false "doc"
        ⟨.doctest, ⟨some "python", [], ">>> x = (", some 4, 0⟩, false⟩ = some [] := by
  have h := doctest_routing_structure_only sampleEnv false "doc" []
    ⟨some "python", [], ">>> x = (", some 4, 0⟩ "python" false
    (by decide) (by decide) (Or.inr ⟨rfl, by decide⟩)
  exact ⟨h.1, h.2.2 rfl⟩

/-- Claim C7 (code bug evaluation): the well-formed GCC-style line
parses as claimed, but the artifact-prefixed line `"code.c:5"` — whose
remainder has fewer colon fields than expected — raises `IndexError`
instead of the `ValueError` the function's docstring announces;
`gcc_checker`'s `except ValueError` does not catch it, so the check
aborts and the following parseable error line is lost instead of the
malformed line being discarded. -/
theorem parse_gcc_short_line_raises_index_error :
    parse_gcc_style_error_message "code.c:2:1: error: oops" "code.c" = .ok (2, "error: oops")
    ∧ parse_gcc_style_error_message "code.c:5" "code.c" = .error .indexError
    ∧ gcc_checker_errors "code.c:5\ncode.c:2:1: error: oops\n" "code.c"
        = ([], some .indexError) := by
  exact ⟨rfl, rfl, rfl⟩

/-- The ignore-messages pattern commutes with the structural parse loop:
running the loop with a pattern equals running the pattern-free loop on
the raw messages with the matching lines removed. -/
theorem structural_stage_filter (m : String → Bool) (filename : String)
    (rawMessages : List String) :
    structural_stage (some m) filename rawMessages
      = structural_stage none filename (rawMessages.filter fun x => !(m x)) := by
  induction rawMessages with
  | nil => rfl
  | cons message rest ih =>
    by_cases hm : m message
    · simp only [structural_stage, hm, if_true, List.filter, Bool.not_true]
      exact ih
    · have hmf : m message = false := by simpa using hm
      simp only [structural_stage, hmf, Bool.not_false, if_false, List.filter]
      cases parse_gcc_style_error_message message filename false with
      | ok e => simp only [structural_stage, if_false, ih]
      | error exc => cases exc <;> simp only [structural_stage, if_false, ih]

/-- Claim C6: with an ignore-messages pattern configured, the merged
document result is exactly the checker-produced diagnostics, untouched
and in front, followed by the parser-native diagnostics of the
non-matching raw messages only — the pattern suppresses matching
structural messages and nothing else. -/
theorem ignore_messages_only_structural
    (checkerDiags : List (Int × String)) (m : String → Bool)
    (filename : String) (rawMessages : List String) :
    check_merge checkerDiags (some m) filename rawMessages
      = checkerDiags
        ++ (structural_stage none filename
              (rawMessages.filter fun x => !(m x))).1 := by
  unfold check_merge
  rw [structural_stage_filter]

/-- The directive scan raises exactly at the first malformed directive
line: if line `i` (0-indexed) matches the comment prefix but does not
split into two `=`-separated parts, and no earlier line does so, the
scan's error is at 1-indexed line `k + i + 1` when started at offset
`k`. -/
theorem find_ignored_first_malformed (ls : List String) (k i : Nat) (line : String)
    (hget : ls.get? i = some line)
    (hpre : pyStartsWith line ".. rstcheck:" = true)
    (hkv : (directiveKV line).length ≠ 2)
    (hprev : ∀ j, j < i → ∀ l2, ls.get? j = some l2 →
      pyStartsWith l2 ".. rstcheck:" = true → (directiveKV l2).length = 2) :
    (find_ignored_languages k ls).2 = some (k + i + 1) := by
  induction ls generalizing k i with
  | nil => simp at hget
  | cons hd tl ih =>
    cases i with
    | zero =>
      have hhd : hd = line := by simpa using hget
      subst hhd
      simp only [find_ignored_languages, hpre, if_true, hkv, if_false]
    | succ i2 =>
      have hgt : tl.get? i2 = some line := by simpa using hget
      have hprevt : ∀ j, j < i2 → ∀ l2, tl.get? j = some l2 →
          pyStartsWith l2 ".. rstcheck:" = true → (directiveKV l2).length = 2 := by
        intro j hj l2 hg2 hp2
        exact hprev (j + 1) (Nat.succ_lt_succ hj) l2 (by simpa using hg2) hp2
      have hrec := ih (k + 1) i2 hgt hprevt
      by_cases hs : pyStartsWith hd ".. rstcheck:" = true
      · have hlen : (directiveKV hd).length = 2 :=
          hprev 0 (Nat.succ_pos i2) hd rfl hs
        simp only [find_ignored_languages, hs, if_true, hlen, if_pos rfl]
        rw [hrec]
        congr 1
        omega
      · have hsf : pyStartsWith hd ".. rstcheck:" = false := by simpa using hs
        simp only [find_ignored_languages, hsf, Bool.false_eq_true, if_false]
        rw [hrec]
        congr 1
        omega

/-- Claim C5: a document whose text contains a comment-prefixed
directive line whose remainder does not split on `=` into exactly two
parts (the earliest such line, at 0-indexed position `i`) makes the
document check yield exactly one diagnostic for that directive — not an
exception — anchored at the directive's own 1-indexed line `i + 1` and
carrying the `Expected "key=value" syntax` message. -/
theorem malformed_directive_single_diagnostic (source : String) (i : Nat) (line : String)
    (hget : (pySplitlines source).get? i = some line)
    (hpre : pyStartsWith line ".. rstcheck:" = true)
    (hkv : (directiveKV line).length ≠ 2)
    (hprev : ∀ j, j < i → ∀ l2, (pySplitlines source).get? j = some l2 →
      pyStartsWith l2 ".. rstcheck:" = true → (directiveKV l2).length = 2) :
    directive_scan_diags source
      = [(((i : Int) + 1), "Expected \"key=value\" syntax")] := by
  unfold directive_scan_diags
  rw [find_ignored_first_malformed (pySplitlines source) 0 i line hget hpre hkv hprev]
  simp

/-- Claim C5 witness: the document `"hello\n.. rstcheck:
ignore-language\n"` (no `=value` on the directive) yields exactly the
one expected-syntax diagnostic at line 2. -/
theorem malformed_directive_single_diagnostic_witness :
    directive_scan_diags "hello\n.. rstcheck: ignore-language\n"
      = [((2 : Int), "Expected \"key=value\" syntax")] := by
  have h := malformed_directive_single_diagnostic
    "hello\n.. rstcheck: ignore-language\n" 1 ".. rstcheck: ignore-language"
    (by decide) (by decide) (by decide) ?_
  · simpa using h
  · intro j hj l2 hg2 hp2
    interval_cases j
    have hev : (pySplitlines "hello\n.. rstcheck: ignore-language\n").get? 0
        = some "hello" := by decide
    rw [hev] at hg2
    cases hg2
    exact absurd hp2 (by decide)

/-- Claim C4: the subprocess-free checkers yield nothing when the
underlying front end accepts the fragment and exactly one pair when it
rejects it; the Python pair carries `lineno or 0`, while the JSON and
XML pairs recover the line number from the trailing `": line N"`
fragment of the front end's message — `0` when no such fragment exists —
and the messages CPython produces for the claim's invalid fragments
(`"x = ("`, `"\x7b\"a\": 1"`, `"<a>text"`) all recover line `1 > 0`. -/
theorem subprocess_free_checkers_roundtrip (env : CheckerEnv) :
    (∀ code, env.pythonCompile code = none → check_python env code = [])
    ∧ (∀ code, env.jsonLoads code = none → check_json env code = [])
    ∧ (∀ code, env.xmlParse code = none → check_xml env code = [])
    ∧ (∀ code lineno msg, env.pythonCompile code = some (lineno, msg) →
        check_python env code = [(lineno.getD 0, msg)])
    ∧ (∀ code msg n, env.jsonLoads code = some msg → searchLineNumber msg = some n →
        check_json env code = [((n : Int), msg)])
    ∧ (∀ code msg, env.jsonLoads code = some msg → searchLineNumber msg = none →
        check_json env code = [(0, msg)])
    ∧ (∀ code msg n, env.xmlParse code = some msg → searchLineNumber msg = some n →
        check_xml env code = [((n : Int), msg)])
    ∧ (∀ code msg, env.xmlParse code = some msg → searchLineNumber msg = none →
        check_xml env code = [(0, msg)])
    ∧ searchLineNumber "Expecting \x27,\x27 delimiter: line 1 column 8 (char 7)" = some 1
    ∧ searchLineNumber "no element found: line 1, column 7" = some 1 := by
  refine ⟨?_, ?_, ?_, ?_, ?_, ?_, ?_, ?_, by decide, by decide⟩
  · intro code h
    unfold check_python
    rw [h]
  · intro code h
    unfold check_json
    rw [h]
  · intro code h
    unfold check_xml
    rw [h]
  · intro code lineno msg h
    unfold check_python
    rw [h]
  · intro code msg n h hn
    unfold check_json
    rw [h]
    simp [hn]
  · intro code msg h hn
    unfold check_json
    rw [h]
    simp [hn]
  · intro code msg n h hn
    unfold check_xml
    rw [h]
    simp [hn]
  · intro code msg h hn
    unfold check_xml
    rw [h]
    simp [hn]

/-- Claim C4 witness: under the recorded CPython outcomes, the valid
fragments `"x = 1"`, `"\x7b\"a\": 1\x7d"` and `"<a>text</a>"` yield zero
pairs, and the invalid variants `"x = ("`, `"\x7b\"a\": 1"` and
`"<a>text"` each yield exactly one pair at line 1. -/
theorem subprocess_free_checkers_roundtrip_witness :
    check_python sampleEnv "x = 1" = []
    ∧ check_json sampleEnv "\x7b\"a\": 1\x7d" = []
    ∧ check_xml sampleEnv "<a>text</a>" = []
    ∧ check_python sampleEnv "x = ("
        = [(1, "\x27(\x27 was never closed")]
    ∧ check_json sampleEnv "\x7b\"a\": 1"
        = [(1, "Expecting \x27,\x27 delimiter: line 1 column 8 (char 7)")]
    ∧ check_xml sampleEnv "<a>text"
        = [(1, "no element found: line 1, column 7")] := by
  have h := subprocess_free_checkers_roundtrip sampleEnv
  refine ⟨h.1 "x = 1" rfl, h.2.1 "\x7b\"a\": 1\x7d" rfl, h.2.2.1 "<a>text</a>" rfl,
    h.2.2.2.1 "x = (" (some 1) "\x27(\x27 was never closed" (by decide),
    h.2.2.2.2.1 "\x7b\"a\": 1" "Expecting \x27,\x27 delimiter: line 1 column 8 (char 7)" 1
      (by decide) (by decide),
    h.2.2.2.2.2.2.1 "<a>text" "no element found: line 1, column 7" 1
      (by decide) (by decide)⟩

/-- `takeWhile`/`dropWhile` on a list whose head block satisfies the
predicate and whose next element refutes it. -/
theorem takeWhile_dropWhile_block {p : Char → Bool} :
    ∀ (u : List Char) (x : Char) (rest : List Char),
      (∀ c ∈ u, p c = true) → p x = false →
      (u ++ x :: rest).takeWhile p = u ∧ (u ++ x :: rest).dropWhile p = x :: rest := by
  intro u
  induction u with
  | nil =>
    intro x rest _ hx
    simp [List.takeWhile, List.dropWhile, hx]
  | cons c u ih =>
    intro x rest hu hx
    have hc : p c = true := hu c (List.mem_cons_self c u)
    have hrec := ih x rest (fun d hd => hu d (List.mem_cons_of_mem c hd)) hx
    simp [List.takeWhile, List.dropWhile, hc, hrec.1, hrec.2]

/-- The compiled severity-tag test agrees with the declarative reading
of `\([A-Z]+/[0-9]+\)` anchored at the start of the message. -/
theorem hasSeverityTag_iff (m : String) :
    hasSeverityTag m = true ↔
      ∃ u d suffix, u ≠ [] ∧ d ≠ [] ∧
        (∀ c ∈ u, ('A' ≤ c && c ≤ 'Z') = true) ∧
        (∀ c ∈ d, c.isDigit = true) ∧
        m.toList = '(' :: (u ++ '/' :: (d ++ ')' :: suffix)) := by
  constructor
  · intro h
    unfold hasSeverityTag at h
    split at h
    case h_2 => exact absurd h (by simp)
    case h_1 rest heq =>
      simp only at h
      split at h
      case h_2 => exact absurd h (by simp)
      case h_1 r3 heq2 =>
        simp only [Bool.and_eq_true] at h
        obtain ⟨⟨hups, hds⟩, hr4⟩ := h
        split at hr4
        case h_2 => exact absurd hr4 (by simp)
        case h_1 tail heq3 =>
          have h1 := List.takeWhile_append_dropWhile
            (p := fun c => ('A' ≤ c && c ≤ 'Z')) (l := rest)
          rw [heq2] at h1
          have h2 := List.takeWhile_append_dropWhile (p := Char.isDigit) (l := r3)
          rw [heq3] at h2
          refine ⟨rest.takeWhile fun c => 'A' ≤ c && c ≤ 'Z',
            r3.takeWhile Char.isDigit, tail, by simpa using hups, by simpa using hds,
            ?_, ?_, ?_⟩
          · intro c hc
            have hmem := List.mem_takeWhile_imp hc
            simpa using hmem
          · intro c hc
            exact List.mem_takeWhile_imp hc
          · rw [heq]
            congr 1
            rw [h2]
            exact h1.symm
  · rintro ⟨u, d, suffix, hu, hd, hup, hdig, hml⟩
    unfold hasSeverityTag
    rw [hml]
    have hslash : (('A' ≤ '/' && '/' ≤ 'Z') : Bool) = false := by decide
    have hb1 := takeWhile_dropWhile_block u '/' (d ++ ')' :: suffix) hup hslash
    have hparen : (')' : Char).isDigit = false := by decide
    have hb2 := takeWhile_dropWhile_block d ')' suffix hdig hparen
    simp only [hb1.1, hb1.2, hb2.1, hb2.2, hu, hd]
    simp [hu, hd]

/-- Claim C8: the run's exit status is `0` exactly when dispatch raised
no OS/encoding fault and every checked file produced an empty diagnostic
sequence; and before printing, a message is left alone precisely when it
opens with a `\([A-Z]+/[0-9]+\)` severity tag, receiving the default
`"(ERROR/3) "` prefix otherwise. -/
theorem main_status_and_default_tag :
    (∀ dispatch, main_status dispatch = 0 ↔
      ∃ results, dispatch = .ok results ∧ ∀ fr ∈ results, fr.2 = []) ∧
    (∀ message, hasSeverityTag message = true → tagMessage message = message) ∧
    (∀ message, hasSeverityTag message = false →
      tagMessage message = "(ERROR/3) " ++ message) ∧
    (∀ message, hasSeverityTag message = true ↔
      ∃ u d suffix, u ≠ [] ∧ d ≠ [] ∧
        (∀ c ∈ u, ('A' ≤ c && c ≤ 'Z') = true) ∧
        (∀ c ∈ d, c.isDigit = true) ∧
        message.toList = '(' :: (u ++ '/' :: (d ++ ')' :: suffix))) := by
  refine ⟨?_, ?_, ?_, hasSeverityTag_iff⟩
  · intro dispatch
    cases dispatch with
    | error e =>
      constructor
      · intro h
        exact absurd h (by simp [main_status])
      · rintro ⟨results, heq, _⟩
        cases heq
    | ok results =>
      constructor
      · intro h
        refine ⟨results, rfl, ?_⟩
        intro fr hfr
        by_contra hne
        have hall : results.all (fun fr => fr.2.isEmpty) = false := by
          rw [List.all_eq_false]
          exact ⟨fr, hfr, by simpa [List.isEmpty_iff] using hne⟩
        simp [main_status, hall] at h
      · rintro ⟨results2, heq, hall⟩
        cases heq
        have : results.all (fun fr => fr.2.isEmpty) = true := by
          rw [List.all_eq_true]
          intro fr hfr
          simpa [List.isEmpty_iff] using hall fr hfr
        simp [main_status, this]
  · intro message h
    unfold tagMessage
    rw [h]
    rfl
  · intro message h
    unfold tagMessage
    rw [h]
    rfl

/-- Claim C8 witness: a clean dispatch gives status 0, one non-empty
per-file sequence gives status 1, a dispatch fault gives status 1, and
the untagged message `"boom"` gains the default tag while a tagged
warning passes through. -/
theorem main_status_and_default_tag_witness :
    main_status (.ok [("good.rst", [])]) = 0
    ∧ main_status (.ok [("good.rst", []), ("bad.rst", [(2, "boom")])]) = 1
    ∧ main_status (.error ()) = 1
    ∧ tagMessage "boom" = "(ERROR/3) boom"
    ∧ tagMessage "(WARNING/2) short underline" = "(WARNING/2) short underline" := by
  have h := main_status_and_default_tag
  exact ⟨(h.1 (.ok [("good.rst", [])])).2 ⟨[("good.rst", [])], rfl, by simp⟩,
    rfl, rfl, h.2.2.1 "boom" (by decide),
    h.2.1 "(WARNING/2) short underline" (by decide)⟩

/-- The walk steps past a blank line. -/
theorem walkBack_blank_step (lines : List String) (n : Nat) (b : String)
    (hb : lines.get? (n + 1) = some b) (hblank : pyStrip b = "") :
    walkBack lines (n + 3) = walkBack lines (n + 2) := by
  have hb2 : lines[n + 1]? = some b := by simpa using hb
  simp [walkBack, hb2, hblank]

/-- The walk breaks at a non-blank line. -/
theorem walkBack_hit (lines : List String) (n : Nat) (s : String)
    (hs : lines.get? (n + 1) = some s) (hnb : pyStrip s ≠ "") :
    walkBack lines (n + 3) = some (n + 3) := by
  have hs2 : lines[n + 1]? = some s := by simpa using hs
  simp [walkBack, hs2, hnb]

/-- At the lower bound the loop variable is `2` whether or not the line
read there is blank. -/
theorem walkBack_two (lines : List String) (s : String)
    (hs : lines.get? 0 = some s) :
    walkBack lines 2 = some 2 := by
  have hs2 : lines[0]? = some s := by simpa using hs
  simp [walkBack, hs2]

/-- Claim C2: in the generic regime the resolver returns
`anchor - code_length + 1` whenever the document line the code inspects
before the anchor (`lines[anchor - 1]`) is non-blank — in particular
`anchor - 2` for a three-line fragment — and otherwise walks backwards
over blank lines before subtracting the fragment length: with two
trailing blank lines below the fragment the walk passes both and the
result is the anchor minus two minus the fragment length, which is
exactly the fragment's true first line. -/
theorem line_offset_generic_resolution
    (full_contents rawsource : String) (attrCount : Nat) (is_code_node : Bool) :
    (∀ (anchor : Int) (s : String),
      pyGet? (pySplitlines full_contents) (anchor - 1) = some s →
      pyStrip s ≠ "" →
      beginning_of_code_block false attrCount rawsource full_contents anchor is_code_node
        = some (anchor - ((pySplitlines rawsource).length : Int) + 1))
    ∧ ((pySplitlines rawsource).length = 3 →
      ∀ (anchor : Int) (s : String),
      pyGet? (pySplitlines full_contents) (anchor - 1) = some s →
      pyStrip s ≠ "" →
      beginning_of_code_block false attrCount rawsource full_contents anchor is_code_node
        = some (anchor - 2))
    ∧ (∀ (m : Nat) (b1 b2 nb : String),
      (∀ s, pyGet? (pySplitlines full_contents) ((m : Int) + 3) = some s → pyStrip s = "") →
      (pySplitlines full_contents).get? (m + 2) = some b1 → pyStrip b1 = "" →
      (pySplitlines full_contents).get? (m + 1) = some b2 → pyStrip b2 = "" →
      (pySplitlines full_contents).get? m = some nb → pyStrip nb ≠ "" →
      beginning_of_code_block false attrCount rawsource full_contents
          ((m : Int) + 4) is_code_node
        = some ((m : Int) + 2 - ((pySplitlines rawsource).length : Int))) := by
  have hfirst : ∀ (anchor : Int) (s : String),
      pyGet? (pySplitlines full_contents) (anchor - 1) = some s →
      pyStrip s ≠ "" →
      beginning_of_code_block false attrCount rawsource full_contents anchor is_code_node
        = some (anchor - ((pySplitlines rawsource).length : Int) + 1) := by
    intro anchor s hget hnb
    unfold beginning_of_code_block
    rw [if_neg (by simp)]
    simp only [hget, hnb, if_false]
  refine ⟨hfirst, ?_, ?_⟩
  · intro hlen anchor s hget hnb
    have h := hfirst anchor s hget hnb
    rw [hlen] at h
    rw [h]
    congr 1
    omega
  · intro m b1 b2 nb hblanks hb1 hblank1 hb2 hblank2 hnb hnonblank
    unfold beginning_of_code_block
    rw [if_neg (by simp)]
    have harith : ((m : Int) + 4) - 1 = (m : Int) + 3 := by ring
    rw [harith]
    have hwalk : walk_return (pySplitlines full_contents) ((m : Int) + 4)
        ((pySplitlines rawsource).length : Int)
        = some ((m : Int) + 2 - ((pySplitlines rawsource).length : Int)) := by
      unfold walk_return
      rw [if_neg (by omega)]
      have htn : ((m : Int) + 4).toNat = m + 4 := by omega
      rw [htn]
      have hw1 : walkBack (pySplitlines full_contents) (m + 4)
          = walkBack (pySplitlines full_contents) (m + 3) :=
        walkBack_blank_step (pySplitlines full_contents) (m + 1) b1 hb1 hblank1
      have hw2 : walkBack (pySplitlines full_contents) (m + 3)
          = walkBack (pySplitlines full_contents) (m + 2) :=
        walkBack_blank_step (pySplitlines full_contents) m b2 hb2 hblank2
      have hw3 : walkBack (pySplitlines full_contents) (m + 2) = some (m + 2) := by
        cases m with
        | zero => exact walkBack_two (pySplitlines full_contents) nb hnb
        | succ k => exact walkBack_hit (pySplitlines full_contents) k nb hnb hnonblank
      rw [hw1, hw2, hw3]
      show some (((m + 2 : Nat) : Int) - ((pySplitlines rawsource).length : Int))
        = some ((m : Int) + 2 - ((pySplitlines rawsource).length : Int))
      congr 1
    cases hget : pyGet? (pySplitlines full_contents) ((m : Int) + 3) with
    | none => exact hwalk
    | some s =>
      have hblank := hblanks s hget
      show (if pyStrip s = "" then
          walk_return (pySplitlines full_contents) ((m : Int) + 4)
            ((pySplitlines rawsource).length : Int)
        else some ((m : Int) + 4 - ((pySplitlines rawsource).length : Int) + 1))
        = some ((m : Int) + 2 - ((pySplitlines rawsource).length : Int))
      rw [if_pos hblank]
      exact hwalk

/-- Claim C2 witness: a three-line fragment anchored at line 4 over a
non-blank line resolves to `4 - 2 = 2`, and a one-line fragment anchored
at line 4 above three trailing blank lines walks back past the blanks to
resolve to line 1. -/
theorem line_offset_generic_resolution_witness :
    beginning_of_code_block false 0 "code1\ncode2\ncode3"
        "text\ncode1\ncode2\ncode3\n" 4 false = some 2
    ∧ beginning_of_code_block false 0 "x" "code1\n\n\n\n" 4 false = some 1 := by
  constructor
  · exact (line_offset_generic_resolution "text\ncode1\ncode2\ncode3\n"
      "code1\ncode2\ncode3" 0 false).2.1 (by decide) 4 "code3" (by decide) (by decide)
  · have h := (line_offset_generic_resolution "code1\n\n\n\n" "x" 0 false).2.2
      0 "" "" "code1" ?_ (by decide) (by decide) (by decide) (by decide)
      (by decide) (by decide)
    · have hlen : ((pySplitlines "x").length : Int) = 1 := by decide
      rw [hlen] at h
      simpa using h
    · intro s hs
      have hev : pyGet? (pySplitlines "code1\n\n\n\n") ((0 : Nat) + 3 : Int) = some "" := by
        decide
      rw [hev] at hs
      cases hs
      rfl

end Rstcheck
